import Mathlib

/-!
Verification of the findtravel trip-planning assistant.

This file gives a shallow embedding, in Lean 4, of the budget-ledger,
booking, serialization, token-retry, location-resolution and
suggestion-parsing logic of the repository, and proves (or refutes) the
stated properties about them.  Money amounts (Python floats holding
decimal dollar values) are modelled as rationals; fallible code is
modelled with `Option`; the external collaborators (HTTP endpoints,
geocoder, text generator) are modelled as explicit oracles passed to the
embedded functions.
-/

namespace FindTravel

/-- Dollar amounts (Python `float` used as a decimal price) are modelled
as rationals. -/
abbrev Money := ℚ

/-- A `{'name': ..., 'iata': ...}` location dictionary
(`models/travel_plan.py`, `__init__`). -/
structure Loc where
  name : Option String
  iata : Option String
deriving Repr, DecidableEq

/-- The flight-booking dictionary written by `search_flights`
(`flight_service.py` lines 100-104): `{'option', 'price', 'details'}`. -/
structure FlightBooking where
  option : ℤ
  price : Money
  details : String
deriving Repr, DecidableEq

/-- The hotel-booking dictionary written by `discuss_hotels`
(`hotel_service.py` lines 87-92).  The CLI fallback path omits the
`'destination'` key, hence the `Option`. -/
structure HotelBooking where
  option : ℤ
  price : Money
  nights : ℤ
  destination : Option String
deriving Repr, DecidableEq

/-- An activity-booking dictionary (`activity_service.py` lines 116-122).
The CLI fallback writes only `'option'` and `'price'`, hence the
`Option`s on the descriptive keys. -/
structure ActivityBooking where
  option : ℤ
  name : Option String
  category : Option String
  duration : Option String
  price : Money
deriving Repr, DecidableEq

/-- The `TravelPlan` aggregate (`models/travel_plan.py`, `__init__`).
Fields start as Python `None` / `[]`, hence the `Option`s. -/
structure TravelPlan where
  total_budget : Option Money
  remaining_budget : Option Money
  departure : Loc
  destination : Loc
  departure_date : Option String
  return_date : Option String
  travelers : Option ℤ
  flights : Option FlightBooking
  hotels : Option HotelBooking
  activities : List ActivityBooking
deriving Repr, DecidableEq

/-- `TravelPlan.__init__`: every field absent. -/
def emptyPlan : TravelPlan :=
  { total_budget := none
    remaining_budget := none
    departure := ⟨none, none⟩
    destination := ⟨none, none⟩
    departure_date := none
    return_date := none
    travelers := none
    flights := none
    hotels := none
    activities := [] }

/-- Total amount spent on bookings: the `spent` accumulation of
`TravelPlan.calculate_remaining_budget` (lines 25-32).  Every booking
dictionary created by the code carries a `'price'` key, so the
`'price' in ...` membership tests always succeed. -/
def spentTotal (p : TravelPlan) : Money :=
  (match p.flights with | some f => f.price | none => 0) +
  (match p.hotels with | some h => h.price | none => 0) +
  (p.activities.map (fun a => a.price)).sum

/-- The global ledger invariant of the spec:
`remaining_budget == total_budget - Σ booked prices` (both budget fields
set). -/
def ledgerInvariant (p : TravelPlan) : Prop :=
  match p.total_budget with
  | some t => p.remaining_budget = some (t - spentTotal p)
  | none => False

/-! ### Structural string helpers

The Python string operations used by the code, implemented by structural
recursion over the character list of a string (so that concrete
evaluations reduce inside proofs). -/

/-- Python `str.lower` on one character (the inputs of interest are
ASCII). -/
def pyLowerChar (c : Char) : Char :=
  if 65 ≤ c.toNat ∧ c.toNat ≤ 90 then Char.ofNat (c.toNat + 32) else c

/-- Python `str.lower`. -/
def pyLower (s : String) : String :=
  ⟨s.data.map pyLowerChar⟩

/-- Python whitespace (`\t`, `\n`, `\v`, `\f`, `\r`, space), the
characters removed by `str.strip()` and separating `str.split()`. -/
def isWsChar (c : Char) : Bool :=
  c.toNat = 32 || (9 ≤ c.toNat && c.toNat ≤ 13)

/-- Python `str.strip()` on a character list. -/
def stripList (cs : List Char) : List Char :=
  ((cs.dropWhile isWsChar).reverse.dropWhile isWsChar).reverse

/-- Python `str.strip()`. -/
def pyStrip (s : String) : String :=
  ⟨stripList s.data⟩

/-- Python `str.split(sep)` for a one-character separator (the code only
splits on `'-'`, `'\n'`, `':'` and `'$'`). -/
def splitChar (sep : Char) : List Char → List (List Char)
  | [] => [[]]
  | c :: cs =>
    if c = sep then [] :: splitChar sep cs
    else
      match splitChar sep cs with
      | r :: rs => (c :: r) :: rs
      | [] => [[c]]

/-- Python `str.split()` (split on whitespace runs, dropping empty
pieces); the accumulator holds the current word reversed. -/
def splitWsAux : List Char → List Char → List (List Char)
  | [], acc => if acc.isEmpty then [] else [acc.reverse]
  | c :: cs, acc =>
    if isWsChar c then
      if acc.isEmpty then splitWsAux cs [] else acc.reverse :: splitWsAux cs []
    else splitWsAux cs (c :: acc)

/-- Python `pat in s` substring containment (for a nonempty pattern). -/
def containsSub (pat : List Char) : List Char → Bool
  | [] => pat.isEmpty
  | c :: cs => pat.isPrefixOf (c :: cs) || containsSub pat cs

/-- Python `s.startswith(pat)`. -/
def pyStarts (s : String) (pat : String) : Bool :=
  pat.data.isPrefixOf s.data

/-- Python `pat in s` on strings. -/
def pyContains (s : String) (pat : String) : Bool :=
  containsSub pat.data s.data

/-- Numeric value of a digit string. -/
def digitsToNat (cs : List Char) : ℕ :=
  cs.foldl (fun a c => a * 10 + (c.toNat - 48)) 0

/-! ### Date parsing and trip duration

`TravelPlan.get_trip_duration_days` parses both dates with
`datetime.strptime(_, "%Y-%m-%d")` and subtracts.  We model the parse as
a conversion of a `YYYY-MM-DD` string to a day number (a rata-die style
count), returning `none` where `strptime` would raise `ValueError`
(non-numeric fields, month/day out of range).  `%Y`/`%m`/`%d` accept 1-4
resp. 1-2 digits. -/

/-- Whether a year is a leap year (proleptic Gregorian, as
`datetime`). -/
def isLeapYear (y : ℕ) : Bool :=
  (y % 4 = 0 && y % 100 ≠ 0) || y % 400 = 0

/-- Number of days in a month of a given year (as `datetime`). -/
def daysInMonth (y m : ℕ) : ℕ :=
  if m = 2 then (if isLeapYear y then 29 else 28)
  else if m = 4 ∨ m = 6 ∨ m = 9 ∨ m = 11 then 30
  else 31

/-- Day count of a valid civil date from a fixed epoch (days-from-civil
formula; only differences of two counts are ever used). -/
def civilDayNumber (y m d : ℕ) : ℕ :=
  let y' := if m ≤ 2 then y - 1 else y
  let mShift := if m > 2 then m - 3 else m + 9
  let doy := (153 * mShift + 2) / 5 + (d - 1)
  y' * 365 + (y' / 4 + y' / 400 + doy) - y' / 100

/-- Parse one numeric date field of at most `maxLen` digits, as the
`strptime` field regexes do. -/
def dateField (maxLen : ℕ) (cs : List Char) : Option ℕ :=
  if cs.length = 0 ∨ cs.length > maxLen ∨ ¬ cs.all Char.isDigit then none
  else some (digitsToNat cs)

/-- `datetime.strptime(s, "%Y-%m-%d")` turned into a day number; `none`
where Python raises `ValueError`. -/
def parseDate (s : String) : Option ℕ :=
  match splitChar '-' s.data with
  | [ys, ms, ds] =>
    match dateField 4 ys, dateField 2 ms, dateField 2 ds with
    | some y, some m, some d =>
      if 1 ≤ y ∧ y ≤ 9999 ∧ 1 ≤ m ∧ m ≤ 12 ∧ 1 ≤ d ∧ d ≤ daysInMonth y m then
        some (civilDayNumber y m d)
      else none
    | _, _, _ => none
  | _ => none

/-- `TravelPlan.get_trip_duration_days` (lines 37-45): `0` when either
date is falsy (`None` or the empty string) or fails to parse, otherwise
the day difference `return - departure` (which may be negative). -/
def get_trip_duration_days (p : TravelPlan) : ℤ :=
  match p.departure_date, p.return_date with
  | some dep, some ret =>
    if dep = "" ∨ ret = "" then 0
    else
      match parseDate dep, parseDate ret with
      | some d1, some d2 => (d2 : ℤ) - (d1 : ℤ)
      | _, _ => 0
  | _, _ => 0

/-! ### Serialization (`to_dict` / `from_dict` / `load_from_file`)

`to_dict` produces a dictionary with exactly the ten field keys;
`from_dict` walks the loaded dictionary's items and `setattr`s each one
onto a fresh plan.  A key that is not one of the ten plan fields becomes
a foreign attribute and leaves every named field untouched; a key that
is absent from the dictionary simply never updates its field.  We model
the dictionary as a list of tagged entries. -/

/-- One `(key, value)` item of a (de)serialized plan dictionary. -/
inductive DictEntry where
  | total_budget (v : Option Money)
  | remaining_budget (v : Option Money)
  | departure (v : Loc)
  | destination (v : Loc)
  | departure_date (v : Option String)
  | return_date (v : Option String)
  | travelers (v : Option ℤ)
  | flights (v : Option FlightBooking)
  | hotels (v : Option HotelBooking)
  | activities (v : List ActivityBooking)
  | unknown (key : String)
deriving Repr, DecidableEq

/-- `TravelPlan.to_dict` (lines 47-60): the ten field keys, in source
order. -/
def to_dict (p : TravelPlan) : List DictEntry :=
  [ .total_budget p.total_budget
  , .remaining_budget p.remaining_budget
  , .departure p.departure
  , .destination p.destination
  , .departure_date p.departure_date
  , .return_date p.return_date
  , .travelers p.travelers
  , .flights p.flights
  , .hotels p.hotels
  , .activities p.activities ]

/-- One `setattr(plan, key, value)` step of `from_dict`: a known key
updates its field, an unknown key stores a foreign attribute and leaves
all named fields unchanged. -/
def setEntry (p : TravelPlan) (e : DictEntry) : TravelPlan :=
  match e with
  | .total_budget v => { p with total_budget := v }
  | .remaining_budget v => { p with remaining_budget := v }
  | .departure v => { p with departure := v }
  | .destination v => { p with destination := v }
  | .departure_date v => { p with departure_date := v }
  | .return_date v => { p with return_date := v }
  | .travelers v => { p with travelers := v }
  | .flights v => { p with flights := v }
  | .hotels v => { p with hotels := v }
  | .activities v => { p with activities := v }
  | .unknown _ => p

/-- `TravelPlan.from_dict` (lines 62-68): start from `__init__` defaults
and `setattr` every item. -/
def from_dict (es : List DictEntry) : TravelPlan :=
  es.foldl setEntry emptyPlan

/-- `TravelPlan.load_from_file` (lines 75-83): the file read and JSON
decode are fallible (`FileNotFoundError` / `JSONDecodeError` are caught
and turned into `None`); a successful decode is fed to `from_dict`. -/
def load_from_file (decoded : Option (List DictEntry)) : Option TravelPlan :=
  decoded.map from_dict

/-- Whether an entry assigns the `flights` field. -/
def setsFlights : DictEntry → Bool
  | .flights _ => true
  | _ => false

/-- Whether an entry assigns the `hotels` field. -/
def setsHotels : DictEntry → Bool
  | .hotels _ => true
  | _ => false

/-- Whether an entry assigns the `activities` field. -/
def setsActivities : DictEntry → Bool
  | .activities _ => true
  | _ => false

/-- Whether an entry assigns the `total_budget` field. -/
def setsTotalBudget : DictEntry → Bool
  | .total_budget _ => true
  | _ => false

/-- A concrete plan with a hotel booked, used in several evaluations:
total budget 2000, hotel priced 900 for 3 nights, remaining 1100. -/
def hotelPlan : TravelPlan :=
  { emptyPlan with
      total_budget := some 2000
      remaining_budget := some 1100
      hotels := some ⟨2, 900, 3, some "Paris"⟩ }

/-- A booked city-tour activity priced 200. -/
def actA : ActivityBooking :=
  ⟨1, some "City Tour", some "Cultural", some "Half-day", 200⟩

/-- A booked adventure activity priced 100. -/
def actB : ActivityBooking :=
  ⟨3, some "Outdoor Adventure", some "Adventure", some "Full-day", 100⟩

/-- A concrete fully-booked plan satisfying the ledger invariant:
total 2000, flight 500, hotel 900, activities 200 + 100, remaining
300. -/
def actPlan : TravelPlan :=
  { emptyPlan with
      total_budget := some 2000
      remaining_budget := some 300
      flights := some ⟨1, 500, "f"⟩
      hotels := some ⟨2, 900, 3, none⟩
      activities := [actA, actB] }

/-! ### Ledger-mutating operations

The booking/unbooking transitions, embedded from their source sites.
Each one is written for the program states in which the code runs them
(in particular `remaining_budget` is a `float` by then; if it were still
`None`, Python would raise before mutating anything, which we model by
returning the plan unchanged in the unreachable `none` branches). -/

/-- The flight confirmation step of `FlightService.search_flights`
(`flight_service.py` lines 89-107): the user has selected an available
option of the given price; the option is booked, and the budget
debited, exactly when the user answers yes and the price is within the
remaining budget (strict `<=` comparison, line 96).  The over-budget
branch itself changes nothing (its optional budget increase is a
separate transition, `increase_budget` below). -/
def confirm_flight (p : TravelPlan) (optNum : ℤ) (price : Money)
    (details : String) (answerYes : Bool) : TravelPlan :=
  match p.remaining_budget with
  | none => p
  | some r =>
    if price ≤ r then
      if answerYes then
        { p with flights := some ⟨optNum, price, details⟩
                 remaining_budget := some (r - price) }
      else p
    else p

/-- The budget-increase offer inside the over-budget branch of
`search_flights` (lines 112-116): `total_budget` is replaced and
`remaining_budget` grows by the increase. -/
def increase_budget (p : TravelPlan) (newBudget : Money) : TravelPlan :=
  match p.total_budget, p.remaining_budget with
  | some t, some r =>
    { p with total_budget := some newBudget
             remaining_budget := some (r + (newBudget - t)) }
  | _, _ => p

/-- Choice 4 of `FlightService._handle_no_flights_found`
(`flight_service.py` lines 332-335): a new total budget is stored and
`remaining_budget` is reset to it, without touching any booking. -/
def no_flights_budget_change (p : TravelPlan) (newBudget : Money) : TravelPlan :=
  { p with total_budget := some newBudget
           remaining_budget := some newBudget }

/-- Choice 5 of `TravelPlannerCLI.edit_travel_details` (`ui/cli.py`
lines 302-318), with the user confirming: if any booking exists all
three booking fields are cleared first, then `total_budget` and
`remaining_budget` are both set to the new value. -/
def cli_budget_change (p : TravelPlan) (newBudget : Money) : TravelPlan :=
  let p' :=
    if p.flights.isSome || p.hotels.isSome || !p.activities.isEmpty then
      { p with flights := none, hotels := none, activities := [] }
    else p
  { p' with total_budget := some newBudget
            remaining_budget := some newBudget }

/-- The per-option estimated hotel price of
`HotelService.discuss_hotels` (`hotel_service.py` lines 74-78). -/
def hotel_estimated_price (r : Money) (nights : ℤ) (optNum : ℤ) : Money :=
  if optNum = 1 then min (r * (4/10)) (200 * nights)
  else if optNum = 2 then min (r * (3/10)) (150 * nights)
  else min (r * (2/10)) (100 * nights)

/-- The hotel confirmation step of `discuss_hotels` (lines 69-99): on a
yes answer the estimated price is checked against the remaining budget
(line 86) and on success the hotel dictionary is stored and the budget
debited. -/
def confirm_hotel (p : TravelPlan) (optNum : ℤ) (answerYes : Bool) : TravelPlan :=
  match p.remaining_budget with
  | none => p
  | some r =>
    let nights := get_trip_duration_days p
    let price := hotel_estimated_price r nights optNum
    if answerYes then
      if price ≤ r then
        { p with hotels := some ⟨optNum, price, nights, p.destination.name⟩
                 remaining_budget := some (r - price) }
      else p
    else p

/-- The per-option predefined activity of
`ActivityService.discuss_activities` (`activity_service.py` lines
89-100); all five prices are `min(remaining * fraction, cap)`. -/
def activity_details_for (r : Money) (optNum : ℤ) : ActivityBooking :=
  if optNum = 1 then ⟨1, some "City Tour", some "Cultural", some "Half-day", min (r * (15/100)) 50⟩
  else if optNum = 2 then ⟨2, some "Museum Visit", some "Cultural", some "Half-day", min (r * (10/100)) 30⟩
  else if optNum = 3 then ⟨3, some "Outdoor Adventure", some "Adventure", some "Full-day", min (r * (25/100)) 80⟩
  else if optNum = 4 then ⟨4, some "Local Cuisine Experience", some "Culinary", some "Half-day", min (r * (15/100)) 60⟩
  else ⟨5, some "Evening Entertainment", some "Entertainment", some "Evening", min (r * (15/100)) 45⟩

/-- The activity-add step of `discuss_activities` (lines 85-137): on a
yes answer the predefined option's price is checked against the
remaining budget (line 114); on success the activity is appended to the
list and the budget debited. -/
def add_activity (p : TravelPlan) (optNum : ℤ) (answerYes : Bool) : TravelPlan :=
  match p.remaining_budget with
  | none => p
  | some r =>
    let act := activity_details_for r optNum
    if answerYes then
      if act.price ≤ r then
        { p with activities := p.activities ++ [act]
                 remaining_budget := some (r - act.price) }
      else p
    else p

/-- Whether the position entered for an activity removal is accepted by
`ActivityService.modify_activities` (`activity_service.py` line 283):
`get_numeric_input` returns a float, rejected unless it is an integer
between 1 and the number of booked activities. -/
def valid_removal_index (p : TravelPlan) (idx : ℚ) : Prop :=
  idx.den = 1 ∧ 1 ≤ idx ∧ idx ≤ (p.activities.length : ℚ)

instance (p : TravelPlan) (idx : ℚ) : Decidable (valid_removal_index p idx) :=
  inferInstanceAs (Decidable (_ ∧ _ ∧ _))

/-- Choice 1 of `ActivityService.modify_activities` (lines 275-291):
an invalid position changes nothing; a valid position pops the
1-based entry from the list and refunds its price. -/
def remove_activity (p : TravelPlan) (idx : ℚ) : TravelPlan :=
  if valid_removal_index p idx then
    match p.activities.get? (idx.num.toNat - 1), p.remaining_budget with
    | some removed, some r =>
      { p with activities := p.activities.eraseIdx (idx.num.toNat - 1)
               remaining_budget := some (r + removed.price) }
    | _, _ => p
  else p

/-- Choice 1 of `HotelService.modify_hotel_booking` (`hotel_service.py`
lines 214-218): refund the hotel price and clear the booking (the
subsequent re-search is a separate transition). -/
def cancel_hotel (p : TravelPlan) : TravelPlan :=
  match p.hotels, p.remaining_budget with
  | some h, some r =>
    { p with remaining_budget := some (r + h.price), hotels := none }
  | _, _ => p

/-- Choice 2 of `modify_hotel_booking` (lines 220-245): recompute the
price per night, reject a non-positive night count or an unaffordable
difference, otherwise debit the difference and update the booking. -/
def adjust_hotel_nights (p : TravelPlan) (newNights : ℤ) : TravelPlan :=
  match p.hotels, p.remaining_budget with
  | some h, some r =>
    let perNight : Money := if h.nights > 0 then h.price / (h.nights : ℚ) else 0
    if newNights ≤ 0 then p
    else
      let newPrice := perNight * (newNights : ℚ)
      if newPrice - h.price > r then p
      else
        { p with remaining_budget := some (r - (newPrice - h.price))
                 hotels := some { h with nights := newNights, price := newPrice } }
  | _, _ => p

/-! ### Token manager (`api_service.py`, `AmadeusTokenManager`)

`get_token` first serves a cached token that is still at least 300
seconds from expiry; otherwise it runs the retry loop of lines 35-58.
The credential-exchange endpoint is modelled as an oracle giving the
outcome of each attempt. -/

/-- Outcome of one credential-exchange attempt, following the branches
of `get_token`: HTTP 200, HTTP 429, a 5xx status, any other non-200
status, or a `RequestException`. -/
inductive TokenResp where
  | success (token : String) (expiresIn : ℤ)
  | rateLimited (retryAfter : Option ℤ)
  | serverError
  | clientError
  | networkError
deriving Repr, DecidableEq

/-- The cached-credential fields of `AmadeusTokenManager`. -/
structure TokenManagerState where
  token : Option String
  expiry_time : ℤ
deriving Repr, DecidableEq

/-- `self.max_retries = 3` (`api_service.py` line 17). -/
def max_retries : ℕ := 3

/-- The `while retries < self.max_retries` loop of `get_token` (lines
35-58), with the remaining retry budget as the recursion counter.
Returns the result together with the number of exchange attempts made:
a 200 returns the token, any non-429 client status breaks out of the
loop, and rate-limit, server-error and network-error outcomes sleep and
consume one retry. -/
def get_token_loop (responses : ℕ → TokenResp) (attempt : ℕ) :
    ℕ → Option String × ℕ
  | 0 => (none, 0)
  | k + 1 =>
    match responses attempt with
    | .success tok _ => (some tok, 1)
    | .clientError => (none, 1)
    | _ =>
      ((get_token_loop responses (attempt + 1) k).1,
       (get_token_loop responses (attempt + 1) k).2 + 1)

/-- `AmadeusTokenManager.get_token` (lines 20-60): serve the cached
token while `now < expiry_time - 300`, otherwise run the exchange loop;
an exhausted loop returns `None` (line 60). -/
def get_token (st : TokenManagerState) (now : ℤ)
    (responses : ℕ → TokenResp) : Option String × ℕ :=
  if st.token.isSome ∧ now < st.expiry_time - 300 then (st.token, 0)
  else get_token_loop responses 0 max_retries

/-- A response sequence giving server errors on the first three
attempts and success on the fourth. -/
def threeServerErrorsThenSuccess : ℕ → TokenResp :=
  fun i => if i < 3 then .serverError else .success "tok" 1799

/-- A response that neither succeeds nor ends the loop: 429, 5xx or a
network failure. -/
def retryable (resp : TokenResp) : Prop :=
  resp = .serverError ∨ resp = .networkError ∨ ∃ w, resp = .rateLimited w

/-! ### Flight search retry (`flight_service.py`, `search_amadeus_flights`)

Lines 164-187: one search request; on a 401 the token is refreshed via
the token manager and the same request is retried at most once; every
failure path returns the empty dictionary, modelled as `none`.  The
token-manager results for the initial ensure-token call (lines 136-141)
and for the 401 refresh (line 173) are passed explicitly, and the
search endpoint is an oracle indexed by request number. -/

/-- Outcome of one flight-search request: HTTP 200 with a payload, HTTP
401, any other status, or a raised exception. -/
inductive FlightResp where
  | ok (payload : String)
  | unauthorized
  | apiError (status : ℤ)
  | networkExc
deriving Repr, DecidableEq

/-- `FlightService.search_amadeus_flights`, returning the result
(`none` stands for the empty dictionary `{}`) and the number of search
requests issued. -/
def search_amadeus_flights (accessToken ensureTok refreshTok : Option String)
    (responses : ℕ → FlightResp) : Option String × ℕ :=
  match (match accessToken with | some t => some t | none => ensureTok) with
  | none => (none, 0)
  | some _ =>
    match responses 0 with
    | .ok d => (some d, 1)
    | .unauthorized =>
      match refreshTok with
      | some _ =>
        match responses 1 with
        | .ok d => (some d, 2)
        | _ => (none, 2)
      | none => (none, 1)
    | _ => (none, 1)

/-! ### Guarded budget divisions (C9)

Every division on the remaining budget in the services is written
`x / nights if nights > 0 else ...`; `pyDiv` is Python's `/`, which
raises on a zero divisor. -/

/-- Python division: `none` models `ZeroDivisionError`. -/
def pyDiv (a : Money) (b : ℚ) : Option Money :=
  if b = 0 then none else some (a / b)

/-- `max_per_night` of `HotelService.discuss_hotels`
(`hotel_service.py` line 25). -/
def hotel_max_per_night (r : Money) (nights : ℤ) : Option Money :=
  if nights > 0 then pyDiv r (nights : ℚ) else some r

/-- `daily_budget` of `ActivityService.discuss_activities`
(`activity_service.py` line 26). -/
def activity_daily_budget (r : Money) (nights : ℤ) : Option Money :=
  if nights > 0 then pyDiv r (nights : ℚ) else some r

/-- `daily_budget` of `get_activity_suggestions` (line 184) and
`max_per_night` of `get_hotel_suggestions` (`hotel_service.py` line
126). -/
def suggestion_daily_budget (budget : Money) (days : ℤ) : Option Money :=
  if days > 0 then pyDiv budget (days : ℚ) else some budget

/-- `price_per_night` of `HotelService.modify_hotel_booking`
(`hotel_service.py` line 223). -/
def booked_price_per_night (price : Money) (nights : ℤ) : Option Money :=
  if nights > 0 then pyDiv price (nights : ℚ) else some 0

/-- `price_per_night = budget / (nights * 1.5)` of the service-less
fallback `get_hotel_suggestions` (`api_wrappers.py` line 150) — no
zero-duration guard. -/
def wrapper_price_per_night (budget : Money) (nights : ℤ) : Option Money :=
  pyDiv budget ((nights : ℚ) * (3/2))

/-- `daily_budget = budget / days` of the service-less fallback
`get_activity_suggestions` (`api_wrappers.py` line 204) — no
zero-duration guard. -/
def wrapper_daily_budget (budget : Money) (days : ℤ) : Option Money :=
  pyDiv budget (days : ℚ)

/-- A plan whose departure and return dates are equal — accepted by the
date prompts, which reject only strictly earlier dates — so the trip
duration is 0. -/
def equalDatesPlan : TravelPlan :=
  { emptyPlan with
      total_budget := some 1000
      remaining_budget := some 1000
      departure_date := some "2026-03-10"
      return_date := some "2026-03-10" }

/-! ### Location resolver (`api_service.py`, `LocationService`)

`find_iata_code` tries, in order: the cache (keyed by the lower-cased
input), the curated `special_cases` table, an Amadeus keyword search
(only when a token is available; its top-5 candidate list goes through
`_find_best_match`), and finally a Google-Maps geocoding fallback that
extracts a locality name and calls `find_iata_code` again on it.  The
external services are an oracle; the recursion is bounded by explicit
fuel, `result = none` meaning the run was still recursing when the fuel
ran out.  The output also counts the provider-search and geocoding
calls made. -/

/-- One Amadeus location candidate (`name`, `iataCode`). -/
structure AmLoc where
  name : String
  iataCode : String
deriving Repr, DecidableEq

/-- A resolved `{'iata', 'name'}` dictionary. -/
structure LocResult where
  iata : String
  name : String
deriving Repr, DecidableEq

/-- The curated exception table of `LocationService.__init__` (lines
71-78). -/
def special_cases : List (String × String × String) :=
  [ ("abidjan", ("ABJ", "Abidjan"))
  , ("maroc", ("CMN", "Casablanca"))
  , ("casablanca", ("CMN", "Casablanca"))
  , ("kigali", ("KGL", "Kigali"))
  , ("nairobi", ("NBO", "Nairobi"))
  , ("dakar", ("DKR", "Dakar")) ]

/-- The external collaborators of the resolver: whether
`token_manager.get_token()` yields a token, the Amadeus keyword-search
data (`none` covers a non-200 response, an exception, or an absent
`data` key; the empty list a present-but-empty one), the geocoder's
extracted locality name, and the `difflib` similarity ratio. -/
structure ResolveOracle where
  hasToken : Bool
  amadeusData : String → Option (List AmLoc)
  geocode : String → Option String
  sim : String → String → ℚ

/-- `LocationService._find_best_match` (lines 138-155): fold over the
candidates keeping the strictly-best score (ties keep the earlier
candidate), scoring by similarity of the lower-cased names plus a flat
0.5 bonus for an exact case-insensitive match; the initial best is the
first candidate with score 0. -/
def find_best_match (sim : String → String → ℚ) (inputName : String)
    (locs : List AmLoc) : AmLoc :=
  match locs with
  | [] => ⟨"", ""⟩
  | l0 :: _ =>
    (locs.foldl
      (fun acc loc =>
        if sim (pyLower inputName) (pyLower loc.name) +
            (if pyLower inputName = pyLower loc.name then (1 : ℚ)/2 else 0) >
            acc.2 then
          (loc, sim (pyLower inputName) (pyLower loc.name) +
            (if pyLower inputName = pyLower loc.name then (1 : ℚ)/2 else 0))
        else acc)
      (l0, 0)).1

/-- The Amadeus strategy of `find_iata_code` (lines 96-122): skipped
without a token; a 200 response with a nonempty `data` list resolves to
the best match, anything else falls through. -/
def amadeus_lookup (O : ResolveOracle) (name : String) : Option LocResult :=
  if O.hasToken then
    match O.amadeusData name with
    | some (l0 :: rest) =>
      some ⟨(find_best_match O.sim name (l0 :: rest)).iataCode,
            (find_best_match O.sim name (l0 :: rest)).name⟩
    | _ => none
  else none

/-- The result of one (possibly recursive) `find_iata_code` run:
`result = none` means the fuel was exhausted mid-recursion (the run was
still going), `result = some none` a terminated run returning `None`,
`result = some (some v)` a resolution; plus the final cache and the
number of Amadeus and geocoding calls made. -/
structure ResolveOut where
  result : Option (Option LocResult)
  cache : List (String × LocResult)
  amadeusCalls : ℕ
  geocodeCalls : ℕ
deriving Repr, DecidableEq

/-- `LocationService.find_iata_code` (lines 80-136).  The cache is an
association list where insertion prepends (so lookup sees the newest
binding, like the Python dict assignment).  Note that the geocoding
fallback (lines 124-134) calls `find_iata_code` itself on the cleaned
city name, i.e. re-enters all four strategies. -/
def find_iata_code (O : ResolveOracle) :
    ℕ → List (String × LocResult) → String → ResolveOut
  | 0, cache, _ => ⟨none, cache, 0, 0⟩
  | fuel + 1, cache, location_name =>
    match cache.lookup (pyLower location_name) with
    | some v => ⟨some (some v), cache, 0, 0⟩
    | none =>
      match special_cases.lookup (pyLower location_name) with
      | some (code, nm) =>
        ⟨some (some ⟨code, nm⟩), (pyLower location_name, ⟨code, nm⟩) :: cache, 0, 0⟩
      | none =>
        match amadeus_lookup O location_name with
        | some v =>
          ⟨some (some v), (pyLower location_name, v) :: cache,
           (if O.hasToken then 1 else 0), 0⟩
        | none =>
          match O.geocode location_name with
          | some city =>
            ⟨(find_iata_code O fuel cache city).result,
             (find_iata_code O fuel cache city).cache,
             (if O.hasToken then 1 else 0) + (find_iata_code O fuel cache city).amadeusCalls,
             1 + (find_iata_code O fuel cache city).geocodeCalls⟩
          | none =>
            ⟨some none, cache, (if O.hasToken then 1 else 0), 1⟩

/-- An oracle with no token, no Amadeus data and no geocoding result. -/
def nullOracle : ResolveOracle :=
  ⟨false, fun _ => none, fun _ => none, fun _ _ => 0⟩

/-- An oracle whose geocoder always returns the queried name itself as
the locality, while every other strategy fails. -/
def loopOracle : ResolveOracle :=
  ⟨false, fun _ => none, fun s => some s, fun _ _ => 0⟩

/-- An oracle that geocodes the free text "Darija" to the locality
"Casablanca" (a curated-table name) and fails everything else. -/
def darijaOracle : ResolveOracle :=
  ⟨false, fun _ => none,
   fun s => if s = "Darija" then some "Casablanca" else none,
   fun _ _ => 0⟩

/-! ### Suggestion parsing (`get_activity_suggestions` /
`get_hotel_suggestions`)

`activity_service.py` lines 182-242 and `hotel_service.py` lines
124-182: the text-generation collaborator's response is split into
lines; a line beginning with a recognized numbered header starts a new
option dictionary, which is appended to the result list immediately;
subsequent lines (and the header line itself) are classified by keyword
and assign fields to the current option in place.  Both parsers follow
the same skeleton, embedded once as `lineStep`/`parseLines` and
instantiated per service.  The state is the list of earlier options
plus the current option (aliasing the would-be last list element). -/

/-- The parsed activity option dictionary; keys appear in the order the
parser can create them. -/
structure SuggestedActivity where
  option : ℕ
  name : Option String
  price : Option Money
  duration : Option String
  value : Option String
  category : Option String
deriving Repr, DecidableEq

/-- The parsed hotel option dictionary. -/
structure SuggestedHotel where
  option : ℕ
  name : Option String
  stars : Option String
  location : Option String
  breakfast : Option String
  price : Option Money
  features : Option String
deriving Repr, DecidableEq

/-- Magnitude part of Python `float(s)`: digits with an optional single
decimal point (`"5"`, `"5."`, `".5"`, `"5.25"`).  Scientific notation,
`inf`/`nan` and digit underscores are not modelled. -/
def pyFloatMag (cs : List Char) : Option Money :=
  if (cs.dropWhile Char.isDigit).isEmpty then
    if cs.isEmpty then none else some (mkRat (digitsToNat cs) 1)
  else
    match cs.dropWhile Char.isDigit with
    | '.' :: frac =>
      if frac.all Char.isDigit ∧ ¬ (cs.takeWhile Char.isDigit).isEmpty ∨
          (¬ frac.isEmpty ∧ frac.all Char.isDigit) then
        some (mkRat (digitsToNat (cs.takeWhile Char.isDigit) * 10 ^ frac.length +
          digitsToNat frac) (10 ^ frac.length))
      else none
    | _ => none

/-- Python `float(s)` (`none` models `ValueError`): optional surrounding
whitespace, an optional sign, then a decimal magnitude. -/
def pyFloat (cs : List Char) : Option Money :=
  match stripList cs with
  | '+' :: rest => pyFloatMag rest
  | '-' :: rest => (pyFloatMag rest).map (fun q => -q)
  | rest => pyFloatMag rest

/-- `line.split('$')[1].split()[0].replace(',', '')` fed to `float`,
with `none` for the `IndexError`/`ValueError` cases the services catch
(`activity_service.py` lines 229-231, `hotel_service.py` lines
172-174). -/
def parseDollarAmount (line : List Char) : Option Money :=
  match splitChar '$' line with
  | _ :: afterDollar :: _ =>
    match splitWsAux afterDollar [] with
    | tok :: _ => pyFloat (tok.filter (fun c => c ≠ ','))
    | [] => none
  | _ => none

/-- `line.split(':')[-1].strip()`. -/
def lastColonField (line : List Char) : String :=
  pyStrip ⟨(splitChar ':' line).getLastD []⟩

/-- The numbered-header recognizer of the activity parser (lines
208-222): `n.` or `Activity n:` for n in 1..5, checked in order. -/
def activityHeaderNum (line : List Char) : Option ℕ :=
  if "1.".data.isPrefixOf line ∨ "Activity 1:".data.isPrefixOf line then some 1
  else if "2.".data.isPrefixOf line ∨ "Activity 2:".data.isPrefixOf line then some 2
  else if "3.".data.isPrefixOf line ∨ "Activity 3:".data.isPrefixOf line then some 3
  else if "4.".data.isPrefixOf line ∨ "Activity 4:".data.isPrefixOf line then some 4
  else if "5.".data.isPrefixOf line ∨ "Activity 5:".data.isPrefixOf line then some 5
  else none

/-- The numbered-header recognizer of the hotel parser (lines 151-159):
`n.` or `Option n:` for n in 1..3. -/
def hotelHeaderNum (line : List Char) : Option ℕ :=
  if "1.".data.isPrefixOf line ∨ "Option 1:".data.isPrefixOf line then some 1
  else if "2.".data.isPrefixOf line ∨ "Option 2:".data.isPrefixOf line then some 2
  else if "3.".data.isPrefixOf line ∨ "Option 3:".data.isPrefixOf line then some 3
  else none

/-- The keyword line classifier of the activity parser (lines 225-240):
a no-colon line longer than 5 characters names a yet-unnamed option; a
cost/price/`$` line parses a dollar amount, substituting the estimate
`daily_budget * (0.1 * option)` on failure; then duration, worth and
category lines take the text after the last colon. -/
def applyActivityDetail (daily : Money) (line : List Char)
    (o : SuggestedActivity) : SuggestedActivity :=
  if o.name = none ∧ containsSub [':'] line = false ∧ line.length > 5 then
    { o with name := some ⟨line⟩ }
  else if containsSub "cost".data (line.map pyLowerChar) ||
      containsSub "price".data (line.map pyLowerChar) ||
      containsSub "$".data line then
    match parseDollarAmount line with
    | some q => { o with price := some q }
    | none => { o with price := some (daily * ((1 : ℚ)/10 * (o.option : ℚ))) }
  else if containsSub "duration".data (line.map pyLowerChar) ||
      containsSub "time".data (line.map pyLowerChar) ||
      containsSub "hour".data (line.map pyLowerChar) then
    { o with duration := some (lastColonField line) }
  else if containsSub "worth".data (line.map pyLowerChar) ||
      containsSub "why".data (line.map pyLowerChar) then
    { o with value := some (lastColonField line) }
  else if containsSub "category".data (line.map pyLowerChar) ||
      containsSub "type".data (line.map pyLowerChar) then
    { o with category := some (lastColonField line) }
  else o

/-- The keyword line classifier of the hotel parser (lines 162-180):
name, star rating (the whole line), location/area, breakfast, price
(estimating `budget * 0.7/0.8/0.9` by option on parse failure), then a
catch-all features line (feature/selling or any remaining colon
line). -/
def applyHotelDetail (budget : Money) (line : List Char)
    (o : SuggestedHotel) : SuggestedHotel :=
  if o.name = none ∧ containsSub [':'] line = false ∧ line.length > 5 then
    { o with name := some ⟨line⟩ }
  else if containsSub "star".data (line.map pyLowerChar) ||
      containsSub "⭐".data line then
    { o with stars := some ⟨line⟩ }
  else if containsSub "location".data (line.map pyLowerChar) ||
      containsSub "area".data (line.map pyLowerChar) then
    { o with location := some (lastColonField line) }
  else if containsSub "breakfast".data (line.map pyLowerChar) then
    { o with breakfast := some (lastColonField line) }
  else if containsSub "price".data (line.map pyLowerChar) ||
      containsSub "$".data line then
    match parseDollarAmount line with
    | some q => { o with price := some q }
    | none =>
      { o with price := some (budget *
          (if o.option = 3 then (7 : ℚ)/10
           else if o.option = 2 then (8 : ℚ)/10 else (9 : ℚ)/10)) }
  else if containsSub "feature".data (line.map pyLowerChar) ||
      containsSub "selling".data (line.map pyLowerChar) ||
      containsSub [':'] line then
    { o with features := some (lastColonField line) }
  else o

/-- One line of the shared parser skeleton: strip the line, skip it if
empty, start (and immediately classify) a new option on a header, or
classify the line into the current option if one exists. -/
def lineStep {α : Type} (headerNum : List Char → Option ℕ) (mk : ℕ → α)
    (detail : List Char → α → α) (st : List α × Option α)
    (rawLine : List Char) : List α × Option α :=
  if (stripList rawLine).isEmpty then st
  else
    match headerNum (stripList rawLine) with
    | some n => (st.1 ++ st.2.toList, some (detail (stripList rawLine) (mk n)))
    | none =>
      match st.2 with
      | some o => (st.1, some (detail (stripList rawLine) o))
      | none => st

/-- Run the parser skeleton over all lines; the final list is the
completed options followed by the still-current one. -/
def parseLines {α : Type} (headerNum : List Char → Option ℕ) (mk : ℕ → α)
    (detail : List Char → α → α) (lines : List (List Char)) : List α :=
  (lines.foldl (lineStep headerNum mk detail) ([], none)).1 ++
  (lines.foldl (lineStep headerNum mk detail) ([], none)).2.toList

/-- `ActivityService.get_activity_suggestions` (lines 182-242), from
the text-generation response onward (the prompt construction and the
`llm.invoke` call are the opaque collaborator). -/
def get_activity_suggestions (response : String) (budget : Money)
    (days : ℤ) : List SuggestedActivity :=
  parseLines activityHeaderNum
    (fun n => ⟨n, none, none, none, none, none⟩)
    (applyActivityDetail (if days > 0 then budget / (days : ℚ) else budget))
    (splitChar '\n' response.data)

/-- `HotelService.get_hotel_suggestions` (lines 124-182), from the
text-generation response onward; `nights` only feeds the prompt and an
unused per-night bound, the estimates use `budget` alone. -/
def get_hotel_suggestions (response : String) (budget : Money)
    (nights : ℤ) : List SuggestedHotel :=
  parseLines hotelHeaderNum
    (fun n => ⟨n, none, none, none, none, none, none⟩)
    (applyHotelDetail budget)
    (splitChar '\n' response.data)

/-- Whether a raw line survives the empty-skip and is recognized as an
option header. -/
def headerLine (headerNum : List Char → Option ℕ) (raw : List Char) : Bool :=
  !(stripList raw).isEmpty && (headerNum (stripList raw)).isSome

/-- Number of lines of the response the activity parser recognizes as
option headers. -/
def activityHeaderCount (response : String) : ℕ :=
  ((splitChar '\n' response.data).filter (headerLine activityHeaderNum)).length

/-- Number of lines of the response the hotel parser recognizes as
option headers. -/
def hotelHeaderCount (response : String) : ℕ :=
  ((splitChar '\n' response.data).filter (headerLine hotelHeaderNum)).length

/-- Size of a parser state: completed options plus the current one. -/
def parserSize {α : Type} (st : List α × Option α) : ℕ :=
  st.1.length + st.2.toList.length

/-- A plan whose return date has an invalid month field. -/
def badDatePlan : TravelPlan :=
  { emptyPlan with
      departure_date := some "2026-01-05"
      return_date := some "2026-13-01" }

theorem foldl_setEntry_flights (es : List DictEntry) (p : TravelPlan)
    (h : ∀ e ∈ es, setsFlights e = false) :
    (es.foldl setEntry p).flights = p.flights := by
  induction es generalizing p with
  | nil => rfl
  | cons e es ih =>
    have he := h e (List.mem_cons_self e es)
    have step : (setEntry p e).flights = p.flights := by
      cases e <;> simp_all [setEntry, setsFlights]
    rw [List.foldl_cons, ih _ (fun x hx => h x (List.mem_cons_of_mem e hx)), step]

theorem foldl_setEntry_hotels (es : List DictEntry) (p : TravelPlan)
    (h : ∀ e ∈ es, setsHotels e = false) :
    (es.foldl setEntry p).hotels = p.hotels := by
  induction es generalizing p with
  | nil => rfl
  | cons e es ih =>
    have he := h e (List.mem_cons_self e es)
    have step : (setEntry p e).hotels = p.hotels := by
      cases e <;> simp_all [setEntry, setsHotels]
    rw [List.foldl_cons, ih _ (fun x hx => h x (List.mem_cons_of_mem e hx)), step]

theorem foldl_setEntry_activities (es : List DictEntry) (p : TravelPlan)
    (h : ∀ e ∈ es, setsActivities e = false) :
    (es.foldl setEntry p).activities = p.activities := by
  induction es generalizing p with
  | nil => rfl
  | cons e es ih =>
    have he := h e (List.mem_cons_self e es)
    have step : (setEntry p e).activities = p.activities := by
      cases e <;> simp_all [setEntry, setsActivities]
    rw [List.foldl_cons, ih _ (fun x hx => h x (List.mem_cons_of_mem e hx)), step]

theorem foldl_setEntry_total_budget (es : List DictEntry) (p : TravelPlan)
    (h : ∀ e ∈ es, setsTotalBudget e = false) :
    (es.foldl setEntry p).total_budget = p.total_budget := by
  induction es generalizing p with
  | nil => rfl
  | cons e es ih =>
    have he := h e (List.mem_cons_self e es)
    have step : (setEntry p e).total_budget = p.total_budget := by
      cases e <;> simp_all [setEntry, setsTotalBudget]
    rw [List.foldl_cons, ih _ (fun x hx => h x (List.mem_cons_of_mem e hx)), step]

/-- **C5.** Serialize-then-deserialize is the identity on plans;
entries with unknown keys are inert; a dictionary that never mentions a
booking field (or the budget) leaves that field at its `__init__`
default; and `load_from_file` maps a failed read/decode to `None`
instead of raising. -/
theorem c5_serialization_round_trip (p : TravelPlan) (es : List DictEntry) (k : String) :
    from_dict (to_dict p) = p ∧
    from_dict (es ++ [DictEntry.unknown k]) = from_dict es ∧
    ((∀ e ∈ es, setsFlights e = false) → (from_dict es).flights = none) ∧
    ((∀ e ∈ es, setsHotels e = false) → (from_dict es).hotels = none) ∧
    ((∀ e ∈ es, setsActivities e = false) → (from_dict es).activities = []) ∧
    ((∀ e ∈ es, setsTotalBudget e = false) → (from_dict es).total_budget = none) ∧
    load_from_file none = none := by
  refine ⟨?_, ?_, ?_, ?_, ?_, ?_, rfl⟩
  · cases p; rfl
  · simp [from_dict, List.foldl_append, setEntry]
  · exact fun h => foldl_setEntry_flights es emptyPlan h
  · exact fun h => foldl_setEntry_hotels es emptyPlan h
  · exact fun h => foldl_setEntry_activities es emptyPlan h
  · exact fun h => foldl_setEntry_total_budget es emptyPlan h

/-- Witness for C5: the round trip, inertness of an unknown key, the
defaults of a field-free dictionary and the `None` propagation of
`load_from_file`, all evaluated at a concrete plan. -/
theorem c5_serialization_round_trip_witness :
    from_dict (to_dict hotelPlan) = hotelPlan ∧
    from_dict [DictEntry.departure_date (some "2026-01-01"), DictEntry.unknown "version"] =
      from_dict [DictEntry.departure_date (some "2026-01-01")] ∧
    (from_dict [DictEntry.departure_date (some "2026-01-01")]).flights = none := by
  have h := c5_serialization_round_trip hotelPlan
    [DictEntry.departure_date (some "2026-01-01")] "version"
  exact ⟨h.1, h.2.1, h.2.2.1 (by decide)⟩

/-- **C1.** The ledger invariant is violated by the budget change of
`_handle_no_flights_found` (choice 4): starting from a plan that
satisfies the invariant and has a hotel booked at 900, changing the
budget through that menu resets `remaining_budget` to the full new
total while the hotel stays booked, so afterwards
`remaining_budget ≠ total_budget - Σ booked prices`. -/
theorem c1_no_flights_budget_change_breaks_invariant :
    ledgerInvariant hotelPlan ∧
    no_flights_budget_change hotelPlan 2000 =
      { hotelPlan with total_budget := some 2000, remaining_budget := some 2000 } ∧
    ¬ ledgerInvariant (no_flights_budget_change hotelPlan 2000) := by
  refine ⟨?_, rfl, ?_⟩
  · show some (1100 : Money) = some (2000 - spentTotal hotelPlan)
    norm_num [spentTotal, hotelPlan, emptyPlan]
  · show ¬ (some (2000 : Money) =
      some (2000 - spentTotal (no_flights_budget_change hotelPlan 2000)))
    norm_num [spentTotal, no_flights_budget_change, hotelPlan, emptyPlan]

/-- **C2.** For each booking transition (flight confirm, hotel confirm,
activity add, user answering yes): a price strictly above the remaining
budget is rejected with the plan — ledger and all booking fields —
unchanged, and a price less than or equal to the remaining budget
(including exactly equal) books the option and debits the budget by
exactly that price, leaving `total_budget` and the other fields
untouched. -/
theorem c2_confirm_budget_boundary (p : TravelPlan) (r : Money) (optNum : ℤ)
    (price : Money) (details : String) (h : p.remaining_budget = some r) :
    (price > r → confirm_flight p optNum price details true = p) ∧
    (price ≤ r →
      confirm_flight p optNum price details true =
        { p with flights := some ⟨optNum, price, details⟩
                 remaining_budget := some (r - price) }) ∧
    (hotel_estimated_price r (get_trip_duration_days p) optNum > r →
      confirm_hotel p optNum true = p) ∧
    (hotel_estimated_price r (get_trip_duration_days p) optNum ≤ r →
      confirm_hotel p optNum true =
        { p with
            hotels := some ⟨optNum, hotel_estimated_price r (get_trip_duration_days p) optNum,
              get_trip_duration_days p, p.destination.name⟩
            remaining_budget :=
              some (r - hotel_estimated_price r (get_trip_duration_days p) optNum) }) ∧
    ((activity_details_for r optNum).price > r → add_activity p optNum true = p) ∧
    ((activity_details_for r optNum).price ≤ r →
      add_activity p optNum true =
        { p with activities := p.activities ++ [activity_details_for r optNum]
                 remaining_budget := some (r - (activity_details_for r optNum).price) }) := by
  refine ⟨?_, ?_, ?_, ?_, ?_, ?_⟩
  · intro hgt
    simp [confirm_flight, h, not_le.mpr hgt]
  · intro hle
    simp [confirm_flight, h, hle]
  · intro hgt
    simp [confirm_hotel, h, not_le.mpr hgt]
  · intro hle
    simp [confirm_hotel, h, hle]
  · intro hgt
    simp [add_activity, h, not_le.mpr hgt]
  · intro hle
    simp [add_activity, h, hle]

/-- Witness for C2 at the concrete plan with remaining budget 1100: a
1200-dollar flight is rejected without any state change, and a flight
costing exactly the remaining 1100 (the boundary case) is booked,
leaving a remaining budget of 0. -/
theorem c2_confirm_budget_boundary_witness :
    confirm_flight hotelPlan 1 1200 "d" true = hotelPlan ∧
    confirm_flight hotelPlan 1 1100 "d" true =
      { hotelPlan with flights := some ⟨1, 1100, "d"⟩, remaining_budget := some 0 } := by
  have h1 := c2_confirm_budget_boundary hotelPlan 1100 1 1200 "d" rfl
  have h2 := c2_confirm_budget_boundary hotelPlan 1100 1 1100 "d" rfl
  refine ⟨h1.1 (by norm_num), ?_⟩
  have e := h2.2.1 (le_refl _)
  rw [e]
  norm_num

/-- **C10.** Removing a booked activity at a valid 1-based position
refunds exactly that activity's price and deletes exactly that list
element, keeping the relative order of the others (`take`/`drop`
decomposition) and every other plan field; an out-of-range or
non-integer position leaves the plan unchanged. -/
theorem c10_remove_activity_frame (p : TravelPlan) (r : Money) (idx : ℚ)
    (h : p.remaining_budget = some r) :
    (valid_removal_index p idx →
      ∀ removed, p.activities.get? (idx.num.toNat - 1) = some removed →
        remove_activity p idx =
          { p with
              activities :=
                p.activities.take (idx.num.toNat - 1) ++ p.activities.drop idx.num.toNat
              remaining_budget := some (r + removed.price) }) ∧
    (¬ valid_removal_index p idx → remove_activity p idx = p) := by
  constructor
  · intro hv removed hget
    have hnum : 1 ≤ idx.num := by
      have h1 : (0 : ℚ) < idx := lt_of_lt_of_le one_pos hv.2.1
      have := Rat.num_pos.mpr h1
      omega
    have hsucc : idx.num.toNat - 1 + 1 = idx.num.toNat := by omega
    rw [remove_activity, if_pos hv, hget, h]
    simp only [List.eraseIdx_eq_take_drop_succ, hsucc]
  · intro hv
    rw [remove_activity, if_neg hv]

/-- Witness for C10 at the concrete two-activity plan: removing
position 1 refunds its price 200 (remaining 300 → 500) and leaves
exactly the second activity; the non-integer position 3/2 changes
nothing. -/
theorem c10_remove_activity_frame_witness :
    remove_activity actPlan 1 =
      { actPlan with activities := [actB], remaining_budget := some 500 } ∧
    remove_activity actPlan (mkRat 3 2) = actPlan := by
  have hv : valid_removal_index actPlan 1 := by
    refine ⟨Rat.den_one, le_refl _, ?_⟩
    norm_num [actPlan, emptyPlan]
  have hget : actPlan.activities.get? ((1 : ℚ).num.toNat - 1) = some actA := by
    norm_num [Rat.num_one, actPlan, emptyPlan]
  have e := (c10_remove_activity_frame actPlan 300 1 rfl).1 hv actA hget
  refine ⟨?_, (c10_remove_activity_frame actPlan 300 (mkRat 3 2) rfl).2 (by decide)⟩
  rw [e]
  norm_num [Rat.num_one, actPlan, actA, actB, emptyPlan]

theorem get_token_loop_le (responses : ℕ → TokenResp) :
    ∀ (k attempt : ℕ), (get_token_loop responses attempt k).2 ≤ k := by
  intro k
  induction k with
  | zero => intro attempt; exact le_refl 0
  | succ k ih =>
    intro attempt
    cases hresp : responses attempt with
    | success tok ttl => simp [get_token_loop, hresp]
    | clientError => simp [get_token_loop, hresp]
    | rateLimited w =>
      simp only [get_token_loop, hresp]
      have := ih (attempt + 1)
      omega
    | serverError =>
      simp only [get_token_loop, hresp]
      have := ih (attempt + 1)
      omega
    | networkError =>
      simp only [get_token_loop, hresp]
      have := ih (attempt + 1)
      omega

theorem get_token_loop_none_of_retryable (responses : ℕ → TokenResp) :
    ∀ (k attempt : ℕ),
      (∀ i, attempt ≤ i → i < attempt + k → retryable (responses i)) →
      (get_token_loop responses attempt k).1 = none := by
  intro k
  induction k with
  | zero => intro attempt h; rfl
  | succ k ih =>
    intro attempt h
    have hr := h attempt (le_refl _) (by omega)
    cases hresp : responses attempt with
    | success tok ttl =>
      rw [hresp] at hr
      rcases hr with h1 | h1 | ⟨w, h1⟩ <;> simp at h1
    | clientError =>
      rw [hresp] at hr
      rcases hr with h1 | h1 | ⟨w, h1⟩ <;> simp at h1
    | rateLimited w =>
      simp only [get_token_loop, hresp]
      exact ih (attempt + 1) (fun i h1 h2 => h i (by omega) (by omega))
    | serverError =>
      simp only [get_token_loop, hresp]
      exact ih (attempt + 1) (fun i h1 h2 => h i (by omega) (by omega))
    | networkError =>
      simp only [get_token_loop, hresp]
      exact ih (attempt + 1) (fun i h1 h2 => h i (by omega) (by omega))

/-- **C4.** With no valid cached token, `get_token` makes at most
`max_retries = 3` exchange attempts in total; three consecutive server
errors followed by a success available only on a 4th attempt still
yield `None` after exactly 3 attempts; a non-rate-limit client error on
the first attempt ends the loop immediately after that single attempt;
and when every available attempt is retryable-and-failing the function
returns `None` rather than raising. -/
theorem c4_token_retry_ceiling (st : TokenManagerState) (now : ℤ)
    (responses : ℕ → TokenResp)
    (h : ¬ (st.token.isSome ∧ now < st.expiry_time - 300)) :
    (get_token st now responses).2 ≤ max_retries ∧
    (responses 0 = .clientError → get_token st now responses = (none, 1)) ∧
    ((∀ i, i < max_retries → retryable (responses i)) →
      (get_token st now responses).1 = none) ∧
    get_token st now threeServerErrorsThenSuccess = (none, 3) := by
  have hgt : ∀ rs : ℕ → TokenResp,
      get_token st now rs = get_token_loop rs 0 max_retries := by
    intro rs
    rw [get_token, if_neg h]
  refine ⟨?_, ?_, ?_, ?_⟩
  · rw [hgt]
    exact get_token_loop_le responses max_retries 0
  · intro h0
    rw [hgt]
    simp [max_retries, get_token_loop, h0]
  · intro hr
    rw [hgt]
    exact get_token_loop_none_of_retryable responses max_retries 0
      (fun i h1 h2 => hr i (by omega))
  · rw [hgt]
    decide

/-- Witness for C4 with an empty cache: three server errors then an
unreachable success yield `(None, 3 attempts)`, and an immediate client
error yields `(None, 1 attempt)`. -/
theorem c4_token_retry_ceiling_witness :
    get_token ⟨none, 0⟩ 0 threeServerErrorsThenSuccess = (none, 3) ∧
    get_token ⟨none, 0⟩ 0 (fun _ => TokenResp.clientError) = (none, 1) := by
  have h1 := c4_token_retry_ceiling ⟨none, 0⟩ 0 threeServerErrorsThenSuccess (by simp)
  have h2 := c4_token_retry_ceiling ⟨none, 0⟩ 0 (fun _ => TokenResp.clientError) (by simp)
  exact ⟨h1.2.2.2, h2.2.1 rfl⟩

/-- **C8.** With a token in hand, `search_amadeus_flights` issues at
most two search requests; a 401 answered by a successful refresh is
retried exactly once (a 200 on the retry returns its payload, anything
else surfaces the empty result after those two requests); and a 401
whose refresh yields no token surfaces the empty result after the
single original request. -/
theorem c8_unauthorized_refresh_once (t : String)
    (accessToken ensureTok refreshTok : Option String)
    (responses : ℕ → FlightResp) (h : accessToken = some t) :
    (search_amadeus_flights accessToken ensureTok refreshTok responses).2 ≤ 2 ∧
    (responses 0 = .unauthorized → refreshTok = none →
      search_amadeus_flights accessToken ensureTok refreshTok responses = (none, 1)) ∧
    (∀ u d, responses 0 = .unauthorized → refreshTok = some u → responses 1 = .ok d →
      search_amadeus_flights accessToken ensureTok refreshTok responses = (some d, 2)) ∧
    (∀ u, responses 0 = .unauthorized → refreshTok = some u →
      (∀ d, responses 1 ≠ .ok d) →
      search_amadeus_flights accessToken ensureTok refreshTok responses = (none, 2)) := by
  subst h
  refine ⟨?_, ?_, ?_, ?_⟩
  · cases h0 : responses 0 with
    | ok d => simp [search_amadeus_flights, h0]
    | unauthorized =>
      cases refreshTok with
      | none => simp [search_amadeus_flights, h0]
      | some u =>
        cases h1 : responses 1 <;> simp [search_amadeus_flights, h0, h1]
    | apiError s => simp [search_amadeus_flights, h0]
    | networkExc => simp [search_amadeus_flights, h0]
  · intro h0 hrt
    simp [search_amadeus_flights, h0, hrt]
  · intro u d h0 hrt h1
    simp [search_amadeus_flights, h0, hrt, h1]
  · intro u h0 hrt h1
    cases hr1 : responses 1 with
    | ok d => exact absurd hr1 (h1 d)
    | unauthorized => simp [search_amadeus_flights, h0, hrt, hr1]
    | apiError s => simp [search_amadeus_flights, h0, hrt, hr1]
    | networkExc => simp [search_amadeus_flights, h0, hrt, hr1]

/-- Witness for C8: a 401 then a 200 with a refreshed token returns the
payload after exactly two requests; a 401 with a failed refresh returns
the empty result after one request. -/
theorem c8_unauthorized_refresh_once_witness :
    search_amadeus_flights (some "t") none (some "u")
      (fun n => if n = 0 then FlightResp.unauthorized else FlightResp.ok "data") =
      (some "data", 2) ∧
    search_amadeus_flights (some "t") none none (fun _ => FlightResp.unauthorized) =
      (none, 1) := by
  have h1 := c8_unauthorized_refresh_once "t" (some "t") none (some "u")
    (fun n => if n = 0 then FlightResp.unauthorized else FlightResp.ok "data") rfl
  have h2 := c8_unauthorized_refresh_once "t" (some "t") none none
    (fun _ => FlightResp.unauthorized) rfl
  exact ⟨h1.2.2.1 "u" "data" rfl rfl rfl, h2.2.1 rfl rfl⟩

/-- **C9 (amended).** `get_trip_duration_days` returns 0 (instead of
raising) whenever a date is missing or fails to parse as `YYYY-MM-DD`,
and the budget-over-duration divisions in the service layer
(`discuss_hotels`, `discuss_activities`, the service suggestion
functions and `modify_hotel_booking`) are guarded by a `duration > 0`
test; but the service-less fallback suggestion functions of
`api_wrappers.py` divide the remaining budget by the duration with no
guard, so a zero duration reaching them divides by zero, and a nonzero
duration is the only thing that keeps them defined.  (As stated the
claim is false — not every caller guards, and a `ZeroDivisionError` is
reachable through the fallback with equal travel dates: see the
counterexample.) -/
theorem c9_division_guards (p : TravelPlan) (r budget price : Money)
    (nights days : ℤ) :
    (p.departure_date = none → get_trip_duration_days p = 0) ∧
    (p.return_date = none → get_trip_duration_days p = 0) ∧
    (∀ d1 d2, p.departure_date = some d1 → p.return_date = some d2 →
      (parseDate d1 = none ∨ parseDate d2 = none) → get_trip_duration_days p = 0) ∧
    (hotel_max_per_night r nights).isSome = true ∧
    (activity_daily_budget r nights).isSome = true ∧
    (suggestion_daily_budget budget days).isSome = true ∧
    (booked_price_per_night price nights).isSome = true ∧
    (∀ b : Money, wrapper_price_per_night b 0 = none) ∧
    (∀ b : Money, wrapper_daily_budget b 0 = none) ∧
    (∀ (b : Money) (n : ℤ), n ≠ 0 →
      (wrapper_price_per_night b n).isSome = true ∧
      (wrapper_daily_budget b n).isSome = true) := by
  have hdiv : ∀ (a : Money) (n : ℤ) (dflt : Money),
      (if n > 0 then pyDiv a (n : ℚ) else some dflt).isSome = true := by
    intro a n dflt
    split
    · rename_i hn
      rw [pyDiv, if_neg (by exact_mod_cast hn.ne')]
      rfl
    · rfl
  refine ⟨?_, ?_, ?_, hdiv r nights r, hdiv r nights r, hdiv budget days budget,
    hdiv price nights 0, ?_, ?_, ?_⟩
  · intro h0
    simp [get_trip_duration_days, h0]
  · intro h0
    cases hd : p.departure_date <;> simp [get_trip_duration_days, hd, h0]
  · intro d1 d2 h1 h2 hp
    simp only [get_trip_duration_days, h1, h2]
    split
    · rfl
    · rcases hp with hp | hp
      · cases hq : parseDate d2 <;> simp [hp, hq]
      · cases hq : parseDate d1 <;> simp [hp, hq]
  · intro b
    simp [wrapper_price_per_night, pyDiv]
  · intro b
    simp [wrapper_daily_budget, pyDiv]
  · intro b n hn
    constructor
    · rw [wrapper_price_per_night, pyDiv,
        if_neg (mul_ne_zero (Int.cast_ne_zero.mpr hn) (by norm_num))]
      rfl
    · rw [wrapper_daily_budget, pyDiv, if_neg (Int.cast_ne_zero.mpr hn)]
      rfl

/-- Witness for the amended C9: the plan whose return date has month 13
gets duration 0; the guarded hotel per-night computation at duration 0
still produces a value (no division occurs); and the unguarded wrapper
divisions are defined at the nonzero duration 5. -/
theorem c9_division_guards_witness :
    get_trip_duration_days badDatePlan = 0 ∧
    (hotel_max_per_night 1100 0).isSome = true ∧
    (wrapper_price_per_night 1000 5).isSome = true ∧
    (wrapper_daily_budget 1000 5).isSome = true := by
  have h := c9_division_guards badDatePlan 1100 0 0 0 0
  have hw := h.2.2.2.2.2.2.2.2.2 1000 5 (by norm_num)
  exact ⟨h.2.2.1 "2026-01-05" "2026-13-01" rfl rfl (Or.inr (by decide)),
    h.2.2.2.1, hw.1, hw.2⟩

/-- Counterexample to **C9** as stated: equal departure and return
dates (which the date prompts accept) give trip duration 0, and the
service-less fallback suggestion functions of `api_wrappers.py` divide
the remaining budget by exactly that duration with no guard — at
duration 0 both divisions are division by zero
(`ZeroDivisionError`). -/
theorem c9_counterexample_unguarded_wrapper_division :
    get_trip_duration_days equalDatesPlan = 0 ∧
    wrapper_price_per_night 1000 (get_trip_duration_days equalDatesPlan) = none ∧
    wrapper_daily_budget 1000 (get_trip_duration_days equalDatesPlan) = none := by
  have h0 : get_trip_duration_days equalDatesPlan = 0 := by decide
  rw [h0]
  refine ⟨rfl, ?_, ?_⟩
  · simp [wrapper_price_per_night, pyDiv]
  · simp [wrapper_daily_budget, pyDiv]

theorem find_iata_code_fail_keeps_cache (O : ResolveOracle) :
    ∀ (fuel : ℕ) (cache : List (String × LocResult)) (name : String),
      (find_iata_code O fuel cache name).result = some none →
      (find_iata_code O fuel cache name).cache = cache := by
  intro fuel
  induction fuel with
  | zero => intro cache name h; simp [find_iata_code] at h
  | succ fuel ih =>
    intro cache name h
    cases hc : cache.lookup (pyLower name) with
    | some v => simp [find_iata_code, hc] at h
    | none =>
      cases hs : special_cases.lookup (pyLower name) with
      | some pr =>
        obtain ⟨code, nm⟩ := pr
        simp [find_iata_code, hc, hs] at h
      | none =>
        cases ha : amadeus_lookup O name with
        | some v => simp [find_iata_code, hc, hs, ha] at h
        | none =>
          cases hg : O.geocode name with
          | some city =>
            have hres : (find_iata_code O (fuel + 1) cache name).result =
                (find_iata_code O fuel cache city).result := by
              simp [find_iata_code, hc, hs, ha, hg]
            have hcache : (find_iata_code O (fuel + 1) cache name).cache =
                (find_iata_code O fuel cache city).cache := by
              simp [find_iata_code, hc, hs, ha, hg]
            rw [hcache]
            exact ih cache city (by rw [← hres]; exact h)
          | none => simp [find_iata_code, hc, hs, ha, hg]

/-- **C7.** The resolver tries the (case-insensitively keyed) cache,
then the curated exception table, then the provider search, stopping at
the first hit (a cache or curated hit makes no provider call); a
curated or provider resolution is stored in the cache under the
lower-cased input; a run that terminates unresolved leaves the cache
untouched; and after "Casablanca" has been resolved once from an empty
cache, a second call is answered from the cache with no provider and no
geocoder call. -/
theorem c7_resolution_order_and_caching (O : ResolveOracle) (fuel : ℕ)
    (cache : List (String × LocResult)) (name : String) :
    (∀ v, cache.lookup (pyLower name) = some v →
      find_iata_code O (fuel + 1) cache name = ⟨some (some v), cache, 0, 0⟩) ∧
    (∀ code nm, cache.lookup (pyLower name) = none →
      special_cases.lookup (pyLower name) = some (code, nm) →
      find_iata_code O (fuel + 1) cache name =
        ⟨some (some ⟨code, nm⟩), (pyLower name, ⟨code, nm⟩) :: cache, 0, 0⟩) ∧
    (∀ v, cache.lookup (pyLower name) = none →
      special_cases.lookup (pyLower name) = none →
      amadeus_lookup O name = some v →
      find_iata_code O (fuel + 1) cache name =
        ⟨some (some v), (pyLower name, v) :: cache,
         (if O.hasToken then 1 else 0), 0⟩) ∧
    ((find_iata_code O fuel cache name).result = some none →
      (find_iata_code O fuel cache name).cache = cache) ∧
    (find_iata_code O (fuel + 1)
        (find_iata_code O 1 [] "Casablanca").cache "Casablanca" =
      ⟨some (some ⟨"CMN", "Casablanca"⟩),
       (find_iata_code O 1 [] "Casablanca").cache, 0, 0⟩) := by
  refine ⟨?_, ?_, ?_, find_iata_code_fail_keeps_cache O fuel cache name, ?_⟩
  · intro v hc
    simp [find_iata_code, hc]
  · intro code nm hc hs
    simp [find_iata_code, hc, hs]
  · intro v hc hs ha
    simp [find_iata_code, hc, hs, ha]
  · rfl

/-- Witness for C7 with the all-failing oracle: the first call on
"Casablanca" resolves through the curated table, caches the result
under the lower-cased input without any provider call, and the second
call is served from the cache, again without provider or geocoder
calls. -/
theorem c7_resolution_order_and_caching_witness :
    find_iata_code nullOracle 1 [] "Casablanca" =
      ⟨some (some ⟨"CMN", "Casablanca"⟩),
       [("casablanca", ⟨"CMN", "Casablanca"⟩)], 0, 0⟩ ∧
    find_iata_code nullOracle 1 [("casablanca", ⟨"CMN", "Casablanca"⟩)] "Casablanca" =
      ⟨some (some ⟨"CMN", "Casablanca"⟩),
       [("casablanca", ⟨"CMN", "Casablanca"⟩)], 0, 0⟩ := by
  have h1 := c7_resolution_order_and_caching nullOracle 0 [] "Casablanca"
  have h2 := c7_resolution_order_and_caching nullOracle 0
    [("casablanca", ⟨"CMN", "Casablanca"⟩)] "Casablanca"
  constructor
  · have e := h1.2.1 "CMN" "Casablanca" (by decide) (by decide)
    rw [e]; decide
  · have e := h2.1 ⟨"CMN", "Casablanca"⟩ (by decide)
    rw [e]

/-- Counterexample to **C6** as stated: with an oracle whose geocoder
returns the queried text itself as the locality (and every other
strategy failing), the resolver invokes the geocoding fallback once per
recursion level — 2 calls within fuel 2, 5 within fuel 5, with the run
still recursing when the fuel ends — so the fallback recursion is not
limited to one level and resolution does not terminate for this
input. -/
theorem c6_counterexample_repeated_geocode :
    (find_iata_code loopOracle 2 [] "zzz").geocodeCalls = 2 ∧
    (find_iata_code loopOracle 2 [] "zzz").result = none ∧
    (find_iata_code loopOracle 5 [] "zzz").geocodeCalls = 5 ∧
    (find_iata_code loopOracle 5 [] "zzz").result = none := by
  decide

/-- **C6 (amended).** When strategies 1-3 all fail, the geocoding
fallback re-enters the full resolver (all four strategies, not just
2-3) on the cleaned locality name, adding one geocoding call per level;
when the cleaned name is then resolved by the curated table (a
strategy-2 hit), the whole resolution finishes with exactly one
geocoding call.  (As stated the claim is false: the recursion is not
limited to one level and need not terminate — see the
counterexample.) -/
theorem c6_geocode_reentry (O : ResolveOracle) (fuel : ℕ)
    (cache : List (String × LocResult)) (name city : String)
    (hc : cache.lookup (pyLower name) = none)
    (hs : special_cases.lookup (pyLower name) = none)
    (ha : amadeus_lookup O name = none)
    (hg : O.geocode name = some city) :
    find_iata_code O (fuel + 1) cache name =
      ⟨(find_iata_code O fuel cache city).result,
       (find_iata_code O fuel cache city).cache,
       (if O.hasToken then 1 else 0) + (find_iata_code O fuel cache city).amadeusCalls,
       1 + (find_iata_code O fuel cache city).geocodeCalls⟩ ∧
    (∀ code nm, cache.lookup (pyLower city) = none →
      special_cases.lookup (pyLower city) = some (code, nm) →
      (find_iata_code O (fuel + 2) cache name).geocodeCalls = 1 ∧
      (find_iata_code O (fuel + 2) cache name).result = some (some ⟨code, nm⟩)) := by
  constructor
  · simp [find_iata_code, hc, hs, ha, hg]
  · intro code nm hcc hsc
    have base : find_iata_code O (fuel + 2) cache name =
        ⟨(find_iata_code O (fuel + 1) cache city).result,
         (find_iata_code O (fuel + 1) cache city).cache,
         (if O.hasToken then 1 else 0) +
           (find_iata_code O (fuel + 1) cache city).amadeusCalls,
         1 + (find_iata_code O (fuel + 1) cache city).geocodeCalls⟩ := by
      simp [find_iata_code, hc, hs, ha, hg]
    have inner : find_iata_code O (fuel + 1) cache city =
        ⟨some (some ⟨code, nm⟩), (pyLower city, ⟨code, nm⟩) :: cache, 0, 0⟩ := by
      simp [find_iata_code, hcc, hsc]
    rw [base, inner]
    exact ⟨rfl, rfl⟩

/-- Witness for the amended C6: geocoding "Darija" to "Casablanca"
resolves through the curated table on the re-entry, with exactly one
geocoding call. -/
theorem c6_geocode_reentry_witness :
    (find_iata_code darijaOracle 2 [] "Darija").geocodeCalls = 1 ∧
    (find_iata_code darijaOracle 2 [] "Darija").result =
      some (some ⟨"CMN", "Casablanca"⟩) := by
  exact (c6_geocode_reentry darijaOracle 0 [] "Darija" "Casablanca"
    (by decide) (by decide) (by decide) (by decide)).2 "CMN" "Casablanca"
    (by decide) (by decide)

theorem lineStep_size {α : Type} (hn : List Char → Option ℕ) (mk : ℕ → α)
    (detail : List Char → α → α) (st : List α × Option α) (l : List Char) :
    parserSize (lineStep hn mk detail st l) =
      parserSize st + (if headerLine hn l then 1 else 0) := by
  cases he : (stripList l).isEmpty with
  | true => simp [lineStep, he, headerLine, parserSize]
  | false =>
    cases hh : hn (stripList l) with
    | some n =>
      simp [lineStep, he, hh, headerLine, parserSize, List.length_append]
    | none =>
      cases hcur : st.2 with
      | some o => simp [lineStep, he, hh, hcur, headerLine, parserSize]
      | none => simp [lineStep, he, hh, hcur, headerLine, parserSize]

theorem foldl_lineStep_size {α : Type} (hn : List Char → Option ℕ) (mk : ℕ → α)
    (detail : List Char → α → α) :
    ∀ (lines : List (List Char)) (st : List α × Option α),
      parserSize (lines.foldl (lineStep hn mk detail) st) =
        parserSize st + (lines.filter (headerLine hn)).length := by
  intro lines
  induction lines with
  | nil => intro st; simp
  | cons l ls ih =>
    intro st
    rw [List.foldl_cons, ih, lineStep_size]
    cases hl : headerLine hn l with
    | true => simp [List.filter_cons, hl]; omega
    | false => simp [List.filter_cons, hl]

theorem parseLines_length {α : Type} (hn : List Char → Option ℕ) (mk : ℕ → α)
    (detail : List Char → α → α) (lines : List (List Char)) :
    (parseLines hn mk detail lines).length =
      (lines.filter (headerLine hn)).length := by
  have h := foldl_lineStep_size hn mk detail lines ([], none)
  simp [parserSize] at h
  simp [parseLines, List.length_append]
  omega

/-- **C3 (amended).** Both suggestion parsers are total (no exception
escapes) and return exactly one option per response line that begins
with a recognized numbered header — so a malformed response without
such a line yields an empty list, and repeated headers can yield more
than five options; when a recognized price line fails numeric parsing
the activity parser substitutes the deterministic estimate
`daily_budget * (0.1 * option_number)`, which is non-negative whenever
the budget is.  (As stated the claim is false: the option count is not
bounded between 1 and 5 and a parsed price can be negative — see the
counterexample.) -/
theorem c3_suggestion_parsing (response : String) (budget : Money)
    (days nights : ℤ) :
    (get_activity_suggestions response budget days).length =
      activityHeaderCount response ∧
    (get_hotel_suggestions response budget nights).length =
      hotelHeaderCount response ∧
    (∀ (b : Money) (d : ℤ),
      get_activity_suggestions "1. City Walk\nPrice: $unknown" b d =
        [⟨1, some "1. City Walk",
          some ((if d > 0 then b / (d : ℚ) else b) * ((1 : ℚ)/10 * ((1 : ℕ) : ℚ))),
          none, none, none⟩]) ∧
    (∀ (b : Money) (d : ℤ) (n : ℕ), 0 ≤ b →
      0 ≤ (if d > 0 then b / (d : ℚ) else b) * ((1 : ℚ)/10 * (n : ℚ))) := by
  refine ⟨?_, ?_, ?_, ?_⟩
  · exact parseLines_length activityHeaderNum
      (fun n => ⟨n, none, none, none, none, none⟩)
      (applyActivityDetail (if days > 0 then budget / (days : ℚ) else budget))
      (splitChar '\n' response.data)
  · exact parseLines_length hotelHeaderNum
      (fun n => ⟨n, none, none, none, none, none, none⟩)
      (applyHotelDetail budget)
      (splitChar '\n' response.data)
  · intro b d
    rfl
  · intro b d n hb
    apply mul_nonneg
    · split
      · rename_i hd
        exact div_nonneg hb (by exact_mod_cast le_of_lt hd)
      · exact hb
    · exact mul_nonneg (by norm_num) (Nat.cast_nonneg n)

/-- Witness for the amended C3: concrete parses — one header line gives
one option, the unparseable price line gets the estimate, and the
estimate for budget 1000 over 5 days is non-negative. -/
theorem c3_suggestion_parsing_witness :
    get_activity_suggestions "1. City Walk\nPrice: $unknown" 1000 5 =
      [⟨1, some "1. City Walk",
        some ((if (5 : ℤ) > 0 then (1000 : ℚ) / ((5 : ℤ) : ℚ) else 1000) *
          ((1 : ℚ)/10 * ((1 : ℕ) : ℚ))),
        none, none, none⟩] ∧
    0 ≤ (if (5 : ℤ) > 0 then (1000 : ℚ) / ((5 : ℤ) : ℚ) else 1000) *
      ((1 : ℚ)/10 * ((3 : ℕ) : ℚ)) := by
  exact ⟨(c3_suggestion_parsing "" 0 0 0).2.2.1 1000 5,
         (c3_suggestion_parsing "" 0 0 0).2.2.2 1000 5 3 (by norm_num)⟩

/-- Counterexample to **C3** as stated: a response with no recognizable
numbered option header yields zero options (not between 1 and 5) from
both parsers, and a price line reading `$-20` is parsed into an option
whose price is negative. -/
theorem c3_counterexample_malformed_and_negative :
    get_activity_suggestions "The city offers many delights.\nEnjoy your trip!" 1000 5
      = [] ∧
    get_hotel_suggestions "Sorry, I cannot help with that request." 500 3 = [] ∧
    (get_activity_suggestions "1. City Walk\nCost: $-20 per person" 1000 5).map
      (fun o => o.price) = [some (mkRat (-20) 1)] ∧
    mkRat (-20) 1 < 0 := by
  refine ⟨by decide, by decide, by decide, by decide⟩

end FindTravel
